import Mathlib

/-!
Verification of the quiz/assessment engine of the GitHub 101 tutorial
(`script.js`).  The definitions below are a shallow embedding of the
quiz-related JavaScript: module-level mutable state becomes an explicit
`QuizState` record, DOM reads become function parameters, and
`Math.random()` draws are modelled by an oracle `r : Nat → Nat` where
`r i` stands for `Math.floor(Math.random() * (i + 1))` (hence `r i ≤ i`).
JavaScript strings are modelled as `List Char` where character-level
operations (regex replace, trim, toLowerCase) matter.
-/

namespace GH101

/-- The closed set of interactive-exercise components
(`component` field of an interactive question). -/
inductive Exercise
  | gitWorkflow
  | branchPractice
  | gitignoreBuilder
deriving DecidableEq

/-- One entry of `quizQuestions`.  A plain object with `options`/`correct`
is a multiple-choice question; an object with `type: "interactive"` and a
`component` field is an interactive question (it has no `correct` field). -/
inductive Question
  | choice (prompt : String) (options : List String) (correct : Nat) (sect : String)
  | interactive (prompt : String) (component : Exercise) (sect : String)
deriving DecidableEq

instance : Inhabited Question := ⟨Question.choice "" [] 0 ""⟩

/-- A value stored in a `userAnswers` slot: `null` (unanswered), a chosen
option index (number), or a verdict string written by an exercise checker. -/
inductive JSAns
  | null
  | num (n : Nat)
  | str (s : String)
deriving DecidableEq

instance : Inhabited JSAns := ⟨JSAns.null⟩

/-- The `quizQuestions` pool from `script.js` (18 entries; the source
comment says "100 comprehensive questions" but the array has 18). -/
def quizQuestions : List Question := [
  Question.choice "What is the main difference between Git and GitHub?"
    ["Git is a web platform, GitHub is a command-line tool",
     "Git is for version control, GitHub is a cloud hosting platform for Git repositories",
     "They are the same thing with different names",
     "Git is for Windows, GitHub is for Mac"] 1 "intro",
  Question.choice "Which is the correct way to create a new repository on GitHub?"
    ["Click 'New repository' button and fill in the details",
     "Use 'git init' command on GitHub website",
     "Send an email to GitHub support",
     "Fork an existing repository"] 0 "repositories",
  Question.choice "Which command downloads a repository from GitHub to your local machine?"
    ["git download", "git copy", "git clone", "git pull"] 2 "repositories",
  Question.interactive "Complete the Git workflow by typing the correct commands:"
    Exercise.gitWorkflow "basics",
  Question.choice "Which command uploads your local commits to GitHub?"
    ["git upload", "git send", "git push", "git sync"] 2 "basics",
  Question.choice "Which command downloads updates from GitHub to your local repository?"
    ["git download", "git fetch", "git pull", "git update"] 2 "basics",
  Question.interactive "Practice branching commands by completing this scenario:"
    Exercise.branchPractice "branching",
  Question.choice "When merging branches, if Git can't automatically combine changes, what occurs?"
    ["The merge is cancelled",
     "Git picks the newer changes",
     "A merge conflict occurs that you must resolve manually",
     "Git deletes the conflicting files"] 2 "branching",
  Question.choice "What is a Pull Request in GitHub?"
    ["A request to download code",
     "A proposal to merge changes from one branch into another",
     "A way to delete branches",
     "A request for repository access"] 1 "collaboration",
  Question.choice "How do you comment on a specific line of code in a Pull Request?"
    ["Email the repository owner",
     "Click the line number in the 'Files changed' tab",
     "Create a new issue",
     "Use git comment command"] 1 "collaboration",
  Question.choice "What is forking a repository?"
    ["Deleting a repository",
     "Creating your own copy of someone else's repository",
     "Merging two repositories",
     "Renaming a repository"] 1 "advanced",
  Question.choice "After forking, how do you get the repository to your local machine?"
    ["git fork", "git download", "git clone [your-fork-url]", "Download ZIP file"] 2 "advanced",
  Question.choice "To keep your fork up-to-date with the original repository, you should:"
    ["Delete and re-fork the repository",
     "Add the original as 'upstream' remote and pull changes",
     "Email the original owner for updates",
     "Forks automatically stay synchronized"] 1 "advanced",
  Question.interactive "Create a .gitignore file for a web project:"
    Exercise.gitignoreBuilder "best-practices",
  Question.choice "A README.md file should typically include:"
    ["Only the project name",
     "Project description, installation instructions, and usage examples",
     "Personal information about the developer",
     "Complete source code"] 1 "best-practices",
  Question.choice "Why should you add a license to your repository?"
    ["It's required by GitHub",
     "To specify how others can use, modify, and distribute your code",
     "To make the repository private",
     "To enable GitHub Actions"] 1 "best-practices",
  Question.choice "GitHub Issues are best used for:"
    ["Storing source code",
     "Tracking bugs, feature requests, and project tasks",
     "Hosting websites",
     "Managing user accounts"] 1 "collaboration",
  Question.choice "What should you NEVER commit to a public Git repository?"
    ["Source code files",
     "Documentation files",
     "Passwords, API keys, and sensitive information",
     "README files"] 2 "best-practices"]

/-- The module-level mutable quiz state of `script.js`, made explicit. -/
structure QuizState where
  currentQuestionIndex : Nat
  userAnswers : List JSAns
  quizStarted : Bool
  quizCompleted : Bool
  finalQuizScore : Nat
  shuffledQuestions : List Question
  questionMapping : List Nat
deriving DecidableEq

/-- The initial values of the module-level variables:
`currentQuestionIndex = 0`, `userAnswers = new Array(quizQuestions.length).fill(null)`,
`quizStarted = false`, `quizCompleted = false`, `finalQuizScore = 0`,
`shuffledQuestions = []`, `questionMapping = []`. -/
def initialState : QuizState :=
  { currentQuestionIndex := 0
    userAnswers := List.replicate quizQuestions.length JSAns.null
    quizStarted := false
    quizCompleted := false
    finalQuizScore := 0
    shuffledQuestions := []
    questionMapping := [] }

/-- `[shuffled[i], shuffled[j]] = [shuffled[j], shuffled[i]]`: the swap
inside the Fisher-Yates loop (both reads happen before the writes). -/
def swapList (l : List Nat) (i j : Nat) : List Nat :=
  (l.set i (l.getD j 0)).set j (l.getD i 0)

/-- The loop of `shuffleArray`, running `i` from the given index down to 1,
swapping entry `i` with entry `r i` (where `r i` models
`Math.floor(Math.random() * (i + 1))`). -/
def fisherYates (r : Nat → Nat) : Nat → List Nat → List Nat
  | 0, l => l
  | i + 1, l => fisherYates r i (swapList l (i + 1) (r (i + 1)))

/-- `shuffleArray` from `script.js`, on a list of indices: copies the array
and runs the Fisher-Yates loop from `length - 1` down to 1. -/
def shuffleArray (r : Nat → Nat) (l : List Nat) : List Nat :=
  fisherYates r (l.length - 1) l

/-- `initializeQuestions()`:
shuffles `[0, ..., pool.length-1]`, takes the first 20 (`slice(0, 20)`),
sets `shuffledQuestions` to the corresponding pool entries,
`questionMapping` to the selected indices, and `userAnswers` to
`new Array(20).fill(null)` (always 20 slots, whatever the pool size). -/
def initializeQuestions (r : Nat → Nat) (pool : List Question) (s : QuizState) : QuizState :=
  let indices := List.range pool.length
  let shuffledIndices := shuffleArray r indices
  let selectedIndices := shuffledIndices.take 20
  { s with
    shuffledQuestions := selectedIndices.map (fun i => pool.getD i default)
    questionMapping := selectedIndices
    userAnswers := List.replicate 20 JSAns.null }

/-- `startQuiz()` (engine-relevant part): sets `quizStarted`, resets the
cursor, and calls `initializeQuestions`. -/
def startQuiz (r : Nat → Nat) (pool : List Question) (s : QuizState) : QuizState :=
  initializeQuestions r pool { s with quizStarted := true, currentQuestionIndex := 0 }

/-- `selectAnswer(answerIndex)`: stores the chosen option index in the
current slot. -/
def selectAnswer (s : QuizState) (answerIndex : Nat) : QuizState :=
  { s with userAnswers := s.userAnswers.set s.currentQuestionIndex (JSAns.num answerIndex) }

/-- `nextQuestion()`: increments the cursor only while strictly below the
last index (`currentQuestionIndex < shuffledQuestions.length - 1`). -/
def nextQuestion (s : QuizState) : QuizState :=
  if s.currentQuestionIndex < s.shuffledQuestions.length - 1 then
    { s with currentQuestionIndex := s.currentQuestionIndex + 1 }
  else s

/-- `previousQuestion()`: decrements the cursor only while it is
positive (`currentQuestionIndex > 0`). -/
def previousQuestion (s : QuizState) : QuizState :=
  if 0 < s.currentQuestionIndex then
    { s with currentQuestionIndex := s.currentQuestionIndex - 1 }
  else s

/-! ### Command equivalence (`checkCommandEquivalence`) -/

/-- The whitespace characters matched by JavaScript `\s` and `trim()`
(ASCII part; the commands in play are ASCII). -/
def isJsWhitespace (c : Char) : Bool :=
  c = ' ' || c = '\t' || c = '\n' || c = '\r' || c = Char.ofNat 11 || c = Char.ofNat 12

/-- `String.prototype.trim()`: drop whitespace from both ends. -/
def trimChars (l : List Char) : List Char :=
  ((l.dropWhile isJsWhitespace).reverse.dropWhile isJsWhitespace).reverse

/-- Collapse maximal runs of spaces to a single space (structural helper
for the regex replace below). -/
def squeezeSpaces : List Char → List Char
  | [] => []
  | [c] => [c]
  | c :: d :: rest =>
    if c = ' ' && d = ' ' then squeezeSpaces (d :: rest)
    else c :: squeezeSpaces (d :: rest)

/-- The single-quote character. -/
def squote : Char := Char.ofNat 39

/-- The `normalize` closure of `checkCommandEquivalence`:
`cmd.toLowerCase().trim().replace(/\s+/g, ' ').replace(/['"]/g, '"')`.
Replacing each `\s+` run by one space is implemented by first mapping
every whitespace character to a space and then squeezing space runs. -/
def normalizeCmd (l : List Char) : List Char :=
  (squeezeSpaces
      ((trimChars (l.map Char.toLower)).map (fun c => if isJsWhitespace c then ' ' else c))).map
    (fun c => if c = squote || c = '"' then '"' else c)

/-- The `variations` lookup table of `checkCommandEquivalence`, keyed by
the normalized expected command. -/
def variationsTable (key : List Char) : Option (List (List Char)) :=
  if key = "git add index.html".data then
    some ["git add index.html".data, "git add .".data]
  else if key = "git checkout feature-login".data then
    some ["git checkout feature-login".data, "git switch feature-login".data]
  else if key = "git checkout -b feature-login".data then
    some ["git checkout -b feature-login".data, "git switch -c feature-login".data]
  else none

/-- `checkCommandEquivalence(userInput, expectedCommand)`: exact match of
the normalized strings, else membership (after normalization) in the
variations table row for the normalized expected command. -/
def checkCommandEquivalence (userInput expectedCommand : List Char) : Bool :=
  let normalizedUser := normalizeCmd userInput
  let normalizedExpected := normalizeCmd expectedCommand
  if normalizedUser = normalizedExpected then true
  else
    match variationsTable normalizedExpected with
    | some variants => variants.any (fun v => normalizeCmd v = normalizedUser)
    | none => false

/-! ### Interactive exercise checkers -/

/-- The `data-answer` attributes of the two `git-workflow` inputs. -/
def gitWorkflowAnswers : List (List Char) :=
  ["git add index.html".data,
   "git commit -m \"Update homepage\"".data]

/-- The `data-answer` attributes of the three `branch-practice` inputs. -/
def branchPracticeAnswers : List (List Char) :=
  ["git branch feature-login".data,
   "git checkout feature-login".data,
   "git checkout -b feature-login".data]

/-- The `data-correct` attributes of the eight `gitignore-builder`
checkboxes (node_modules/, .env, *.log, index.html, dist/, package.json,
.DS_Store, src/). -/
def gitignoreExpected : List Bool :=
  [true, true, true, false, true, false, true, false]

/-- Body of the `checkGitWorkflow` loop: every input's trimmed value must
be command-equivalent to its `data-answer` (`allCorrect` stays true). -/
def checkGitWorkflowVerdict (steps : List (List Char × List Char)) : Bool :=
  steps.all (fun p => checkCommandEquivalence (trimChars p.1) p.2)

/-- Body of the `checkBranchPractice` loop: count the matching inputs and
accept when `correctCount >= 2`. -/
def checkBranchPracticeVerdict (steps : List (List Char × List Char)) : Bool :=
  2 ≤ steps.countP (fun p => checkCommandEquivalence (trimChars p.1) p.2)

/-- Body of the `checkGitignoreBuilder` loop: `allCorrect` stays true iff
every checkbox's checked state equals its `data-correct` tag. -/
def checkGitignoreBuilderVerdict (boxes : List (Bool × Bool)) : Bool :=
  boxes.all (fun p => p.1 = p.2)

/-- `userAnswers[currentQuestionIndex] = ok ? 'correct' : 'incorrect'`,
the write each interactive checker performs. -/
def writeVerdict (s : QuizState) (ok : Bool) : QuizState :=
  { s with
    userAnswers := s.userAnswers.set s.currentQuestionIndex
      (JSAns.str (if ok then "correct" else "incorrect")) }

/-- `checkGitWorkflow()`: the DOM supplies the typed values paired with
the fixed `data-answer` strings; the aggregate verdict is written into
the current answer slot. -/
def checkGitWorkflowOp (s : QuizState) (inputs : List (List Char)) : QuizState :=
  writeVerdict s (checkGitWorkflowVerdict (inputs.zip gitWorkflowAnswers))

/-- `checkBranchPractice()`: same shape, with the 2-of-3 rule. -/
def checkBranchPracticeOp (s : QuizState) (inputs : List (List Char)) : QuizState :=
  writeVerdict s (checkBranchPracticeVerdict (inputs.zip branchPracticeAnswers))

/-- `checkGitignoreBuilder()`: the DOM supplies each checkbox's checked
state paired with its `data-correct` tag. -/
def checkGitignoreBuilderOp (s : QuizState) (checks : List Bool) : QuizState :=
  writeVerdict s (checkGitignoreBuilderVerdict (checks.zip gitignoreExpected))

/-! ### Scorer (`submitQuiz`) and review (`showQuizResults`) -/

/-- One slot of the scoring loop in `submitQuiz`: interactive questions
count when the stored answer is the string `'correct'`; choice questions
when it is the number `question.correct`.  (`===` between a string and a
number is false, as is `===` against `null`.) -/
def isSlotCorrect (q : Question) (answer : JSAns) : Bool :=
  match q with
  | Question.interactive _ _ _ => answer = JSAns.str "correct"
  | Question.choice _ _ c _ => answer = JSAns.num c

/-- `Math.round((correctAnswers / K) * 100)` as exact arithmetic:
round-half-up of `100 * c / K`, i.e. `⌊(200c + K) / (2K)⌋`.  For the
scores this program produces (`c ≤ K ≤ 20`) the double-precision
computation in the source is exact to well within rounding distance, so
the two agree. -/
def roundPct (c K : Nat) : Nat := (200 * c + K) / (2 * K)

/-- The Scored Result computed by `submitQuiz`. -/
structure QuizResult where
  correctAnswers : Nat
  percentage : Nat
  passed : Bool
deriving DecidableEq

/-- The scoring part of `submitQuiz`: fold the `forEach` accumulator over
the question/answer pairs, then percentage and pass flag
(`passed = percentage >= 80`). -/
def scoreQuiz (qs : List Question) (answers : List JSAns) : QuizResult :=
  let correctAnswers :=
    (qs.zip answers).foldl (fun acc p => if isSlotCorrect p.1 p.2 then acc + 1 else acc) 0
  let percentage := roundPct correctAnswers qs.length
  { correctAnswers := correctAnswers
    percentage := percentage
    passed := decide (80 ≤ percentage) }

/-- Outcome of `submitQuiz`: either the early-return alert reporting the
number of unanswered slots, or completion with the Scored Result. -/
inductive SubmitOutcome
  | incomplete (unanswered : Nat)
  | completed (result : QuizResult)
deriving DecidableEq

/-- `submitQuiz()`: counts `userAnswers.filter(a => a === null).length`;
if positive, alerts and returns without touching the state; otherwise
sets `quizCompleted`, computes the score and stores `finalQuizScore`. -/
def submitQuiz (s : QuizState) : QuizState × SubmitOutcome :=
  let unansweredQuestions := (s.userAnswers.filter (fun a => a = JSAns.null)).length
  if 0 < unansweredQuestions then (s, SubmitOutcome.incomplete unansweredQuestions)
  else
    let result := scoreQuiz s.shuffledQuestions s.userAnswers
    ({ s with quizCompleted := true, finalQuizScore := result.percentage },
     SubmitOutcome.completed result)

/-- The JavaScript `q.correct` property read: a number for a choice
question, `undefined` for an interactive question (which has no such
field). -/
def Question.correctField : Question → Option Nat
  | Question.choice _ _ c _ => some c
  | Question.interactive _ _ _ => none

/-- `userAnswer === q.correct` in `showQuizResults`: true only when both
sides are the same number (`x === undefined` is false for every stored
answer value, `null` included). -/
def reviewIsCorrect (q : Question) (userAnswer : JSAns) : Bool :=
  match q.correctField with
  | some c => userAnswer = JSAns.num c
  | none => false

/-- The per-question correctness flags of the review list rendered by
`showQuizResults` (one flag per drawn question, `userAnswers[index]`). -/
def reviewBreakdown (qs : List Question) (answers : List JSAns) : List Bool :=
  (qs.zip answers).map (fun p => reviewIsCorrect p.1 p.2)

/-- The claim's per-slot correctness rule, stated from the spec's words:
a choice slot is correct when it stores the correct-option index, an
interactive slot when it stores the `'correct'` sentinel. -/
def specSlotCorrect (q : Question) (a : JSAns) : Bool :=
  match q with
  | Question.choice _ _ c _ => a = JSAns.num c
  | Question.interactive _ _ _ => a = JSAns.str "correct"

/-- A concrete pool of 36 questions for the sampler witness. -/
def pool36 : List Question := quizQuestions ++ quizQuestions

/-- The state right after `startQuiz` on the shipped pool, with the
always-zero draw oracle (used by several witnesses). -/
def startedState : QuizState := startQuiz (fun _ => 0) quizQuestions initialState

/-- Branch-practice inputs with steps 1 and 3 right and step 2 wrong. -/
def branchTry : List (List Char) :=
  ["git branch feature-login".data, "git wrong".data, "git checkout -b feature-login".data]

/-- Ignore-builder checkbox states: only `node_modules/` and `.env`
checked. -/
def ignoreTry : List Bool := [true, true, false, false, false, false, false, false]

/-! ### Helper lemmas -/

theorem getD_set_self (l : List JSAns) (i : Nat) (v d : JSAns) (h : i < l.length) :
    (l.set i v).getD i d = v := by
  induction l generalizing i with
  | nil => simp at h
  | cons x t ih =>
    cases i with
    | zero => simp
    | succ k => simpa using ih k (by simpa using h)

theorem cons_set_perm (t : List Nat) (m : Nat) (x : Nat) (h : m < t.length) :
    List.Perm (t.getD m 0 :: t.set m x) (x :: t) := by
  induction t generalizing m with
  | nil => simp at h
  | cons y s ih =>
    cases m with
    | zero => simpa using List.Perm.swap x y s
    | succ k =>
      have hk : k < s.length := by simpa using h
      have h1 : List.Perm (s.getD k 0 :: y :: s.set k x) (y :: s.getD k 0 :: s.set k x) :=
        List.Perm.swap _ _ _
      have h2 : List.Perm (y :: s.getD k 0 :: s.set k x) (y :: x :: s) :=
        List.Perm.cons y (ih k hk)
      have h3 : List.Perm (y :: x :: s) (x :: y :: s) := List.Perm.swap _ _ _
      simpa using h1.trans (h2.trans h3)

theorem swapList_perm (l : List Nat) (i j : Nat) (hi : i < l.length) (hj : j < l.length) :
    List.Perm (swapList l i j) l := by
  induction l generalizing i j with
  | nil => simp at hi
  | cons x t ih =>
    match i, j with
    | 0, 0 => simp [swapList]
    | 0, j + 1 =>
      have hj' : j < t.length := by simpa using hj
      simpa [swapList] using cons_set_perm t j x hj'
    | i + 1, 0 =>
      have hi' : i < t.length := by simpa using hi
      simpa [swapList] using cons_set_perm t i x hi'
    | i + 1, j + 1 =>
      have hi' : i < t.length := by simpa using hi
      have hj' : j < t.length := by simpa using hj
      simpa [swapList] using List.Perm.cons x (ih i j hi' hj')

theorem swapList_length (l : List Nat) (i j : Nat) :
    (swapList l i j).length = l.length := by
  simp [swapList]

theorem fisherYates_perm (r : Nat → Nat) (hr : ∀ k, r k ≤ k) :
    ∀ (i : Nat) (l : List Nat), i < l.length → List.Perm (fisherYates r i l) l := by
  intro i
  induction i with
  | zero => intro l _; exact List.Perm.refl l
  | succ n ih =>
    intro l hl
    have hj : r (n + 1) < l.length := lt_of_le_of_lt (hr (n + 1)) hl
    have hswap : List.Perm (swapList l (n + 1) (r (n + 1))) l := swapList_perm l (n + 1) (r (n + 1)) hl hj
    have hlen : (swapList l (n + 1) (r (n + 1))).length = l.length := swapList_length _ _ _
    have hrec : List.Perm (fisherYates r n (swapList l (n + 1) (r (n + 1))))
        (swapList l (n + 1) (r (n + 1))) := by
      apply ih
      omega
    exact (hrec.trans hswap)

theorem shuffleArray_perm (r : Nat → Nat) (hr : ∀ k, r k ≤ k) (l : List Nat) :
    List.Perm (shuffleArray r l) l := by
  cases l with
  | nil => exact List.Perm.refl _
  | cons x t =>
    apply fisherYates_perm r hr
    simp

theorem foldl_count_if {β : Type} (f : β → Bool) :
    ∀ (l : List β) (n : Nat),
      l.foldl (fun acc p => if f p then acc + 1 else acc) n = n + l.countP f := by
  intro l
  induction l with
  | nil => intro n; simp
  | cons x t ih =>
    intro n
    by_cases h : f x
    · simp [List.countP_cons, h, ih]
      omega
    · simp [List.countP_cons, h, ih]

theorem countP_zip_range (f : Question → JSAns → Bool) :
    ∀ (qs : List Question) (ans : List JSAns), ans.length = qs.length →
      (qs.zip ans).countP (fun p => f p.1 p.2)
        = (List.range qs.length).countP
            (fun i => f (qs.getD i default) (ans.getD i JSAns.null)) := by
  intro qs
  induction qs with
  | nil => intro ans _; simp
  | cons q qt ih =>
    intro ans hlen
    cases ans with
    | nil => simp at hlen
    | cons a at_ =>
      have hlen' : at_.length = qt.length := by simpa using hlen
      have hr : List.range (qt.length + 1) = 0 :: (List.range qt.length).map Nat.succ :=
        List.range_succ_eq_map qt.length
      simp only [List.zip_cons_cons, List.countP_cons, List.length_cons, hr, List.countP_map]
      rw [ih at_ hlen']
      have hfun : ((fun i => f ((q :: qt).getD i default) ((a :: at_).getD i JSAns.null))
            ∘ Nat.succ)
          = fun i => f (qt.getD i default) (at_.getD i JSAns.null) := by
        funext i
        simp [Function.comp]
      rw [hfun]
      simp

theorem specSlotCorrect_eq_isSlotCorrect (q : Question) (a : JSAns) :
    specSlotCorrect q a = isSlotCorrect q a := by
  cases q <;> rfl

/-- C1: For a finalized, fully-answered attempt of `K` drawn questions
(the sampler draws at most 20, and `K ≥ 1` so the percentage divides by a
positive count), `submitQuiz`'s Scored Result counts exactly the slots
satisfying the per-kind correctness rule, its percentage is the
round-half-up of `100·correct/K`, and it passes iff that percentage is at
least 80. -/
theorem scorer_spec (qs : List Question) (ans : List JSAns)
    (hK : 0 < qs.length) (hK20 : qs.length ≤ 20)
    (hlen : ans.length = qs.length)
    (hfull : ∀ a ∈ ans, a ≠ JSAns.null) :
    (scoreQuiz qs ans).correctAnswers
        = (List.range qs.length).countP
            (fun i => specSlotCorrect (qs.getD i default) (ans.getD i JSAns.null))
      ∧ (scoreQuiz qs ans).percentage
          = (200 * (scoreQuiz qs ans).correctAnswers + qs.length) / (2 * qs.length)
      ∧ ((scoreQuiz qs ans).passed = true ↔ 80 ≤ (scoreQuiz qs ans).percentage) := by
  refine ⟨?_, ?_, ?_⟩
  · show (qs.zip ans).foldl (fun acc p => if isSlotCorrect p.1 p.2 then acc + 1 else acc) 0 = _
    rw [foldl_count_if (fun p => isSlotCorrect p.1 p.2) (qs.zip ans) 0]
    rw [countP_zip_range (fun q a => isSlotCorrect q a) qs ans hlen]
    simp only [specSlotCorrect_eq_isSlotCorrect]
    omega
  · rfl
  · exact decide_eq_true_iff

/-- Closed witness for `scorer_spec`: a 5-question attempt with 4 correct
answers scores 4 correct, 80 percent, pass (the spec's worked example). -/
theorem scorer_spec_witness :
    (scoreQuiz (quizQuestions.take 5)
          [JSAns.num 1, JSAns.num 0, JSAns.num 2, JSAns.str "correct", JSAns.num 0]).correctAnswers
        = (List.range (quizQuestions.take 5).length).countP
            (fun i => specSlotCorrect ((quizQuestions.take 5).getD i default)
              (([JSAns.num 1, JSAns.num 0, JSAns.num 2, JSAns.str "correct",
                  JSAns.num 0]).getD i JSAns.null))
      ∧ (scoreQuiz (quizQuestions.take 5)
            [JSAns.num 1, JSAns.num 0, JSAns.num 2, JSAns.str "correct", JSAns.num 0]).percentage
          = (200 * (scoreQuiz (quizQuestions.take 5)
              [JSAns.num 1, JSAns.num 0, JSAns.num 2, JSAns.str "correct",
                JSAns.num 0]).correctAnswers + (quizQuestions.take 5).length)
            / (2 * (quizQuestions.take 5).length)
      ∧ ((scoreQuiz (quizQuestions.take 5)
            [JSAns.num 1, JSAns.num 0, JSAns.num 2, JSAns.str "correct", JSAns.num 0]).passed = true
          ↔ 80 ≤ (scoreQuiz (quizQuestions.take 5)
              [JSAns.num 1, JSAns.num 0, JSAns.num 2, JSAns.str "correct",
                JSAns.num 0]).percentage) :=
  scorer_spec (quizQuestions.take 5)
    [JSAns.num 1, JSAns.num 0, JSAns.num 2, JSAns.str "correct", JSAns.num 0]
    (by decide) (by decide) (by decide) (by decide)

/-- C2: `submitQuiz` on a state with an unanswered slot returns the
incomplete outcome carrying the number of unanswered slots (which is
positive), performs no scoring, and returns the state unchanged. -/
theorem submit_incomplete (s : QuizState) (h : JSAns.null ∈ s.userAnswers) :
    submitQuiz s
        = (s, SubmitOutcome.incomplete
            ((s.userAnswers.filter (fun a => a = JSAns.null)).length))
      ∧ 0 < (s.userAnswers.filter (fun a => a = JSAns.null)).length := by
  have hpos : 0 < (s.userAnswers.filter (fun a => a = JSAns.null)).length := by
    have : JSAns.null ∈ s.userAnswers.filter (fun a => a = JSAns.null) := by
      simp [List.mem_filter, h]
    exact List.length_pos.mpr (fun hnil => by simp [hnil] at this)
  constructor
  · simp only [submitQuiz, if_pos hpos]
  · exact hpos

/-- Closed witness for `submit_incomplete`: a freshly started quiz (all
20 slots `null`) fails submission with 20 unanswered slots and an
unchanged state. -/
theorem submit_incomplete_witness :
    submitQuiz (startQuiz (fun _ => 0) quizQuestions initialState)
        = (startQuiz (fun _ => 0) quizQuestions initialState, SubmitOutcome.incomplete
            (((startQuiz (fun _ => 0) quizQuestions initialState).userAnswers.filter
              (fun a => a = JSAns.null)).length))
      ∧ 0 < (((startQuiz (fun _ => 0) quizQuestions initialState)).userAnswers.filter
          (fun a => a = JSAns.null)).length :=
  submit_incomplete (startQuiz (fun _ => 0) quizQuestions initialState) (by decide)

theorem fisherYates_length (r : Nat → Nat) :
    ∀ (i : Nat) (l : List Nat), (fisherYates r i l).length = l.length := by
  intro i
  induction i with
  | zero => intro l; rfl
  | succ n ih =>
    intro l
    show (fisherYates r n (swapList l (n + 1) (r (n + 1)))).length = l.length
    rw [ih, swapList_length]

theorem shuffleArray_length (r : Nat → Nat) (l : List Nat) :
    (shuffleArray r l).length = l.length :=
  fisherYates_length r (l.length - 1) l

/-- C3: With a pool of at least 20 questions, `initializeQuestions` draws
exactly 20 pairwise-distinct pool positions — the first 20 entries of a
Fisher-Yates permutation of all pool indices — maps them to their pool
entries, and resets the answer array to 20 unanswered slots. -/
theorem sampler_draws_20 (r : Nat → Nat) (pool : List Question) (s : QuizState)
    (hr : ∀ k, r k ≤ k) (hN : 20 ≤ pool.length) :
    (initializeQuestions r pool s).questionMapping.length = 20
    ∧ (initializeQuestions r pool s).questionMapping.Nodup
    ∧ (∀ i ∈ (initializeQuestions r pool s).questionMapping, i < pool.length)
    ∧ (initializeQuestions r pool s).shuffledQuestions
        = (initializeQuestions r pool s).questionMapping.map (fun i => pool.getD i default)
    ∧ (initializeQuestions r pool s).questionMapping
        = (shuffleArray r (List.range pool.length)).take 20
    ∧ (initializeQuestions r pool s).shuffledQuestions.length = 20
    ∧ (initializeQuestions r pool s).userAnswers = List.replicate 20 JSAns.null := by
  have hperm : List.Perm (shuffleArray r (List.range pool.length)) (List.range pool.length) :=
    shuffleArray_perm r hr (List.range pool.length)
  have hlen : (shuffleArray r (List.range pool.length)).length = pool.length := by
    rw [hperm.length_eq, List.length_range]
  have hmaplen : ((shuffleArray r (List.range pool.length)).take 20).length = 20 := by
    rw [List.length_take, hlen]
    omega
  have hnodup : ((shuffleArray r (List.range pool.length)).take 20).Nodup := by
    have : (shuffleArray r (List.range pool.length)).Nodup :=
      hperm.nodup_iff.mpr (List.nodup_range pool.length)
    exact this.sublist (List.take_sublist 20 _)
  have hmem : ∀ i ∈ (shuffleArray r (List.range pool.length)).take 20, i < pool.length := by
    intro i hi
    have : i ∈ List.range pool.length :=
      hperm.mem_iff.mp (List.take_subset 20 _ hi)
    exact List.mem_range.mp this
  refine ⟨hmaplen, hnodup, hmem, rfl, rfl, ?_, rfl⟩
  show (((shuffleArray r (List.range pool.length)).take 20).map
      (fun i => pool.getD i default)).length = 20
  rw [List.length_map, hmaplen]

/-- Closed witness for `sampler_draws_20`: a 36-question pool with the
always-zero draw oracle. -/
theorem sampler_draws_20_witness :
    (initializeQuestions (fun _ => 0) pool36 initialState).questionMapping.length = 20
    ∧ (initializeQuestions (fun _ => 0) pool36 initialState).questionMapping.Nodup
    ∧ (∀ i ∈ (initializeQuestions (fun _ => 0) pool36 initialState).questionMapping,
        i < pool36.length)
    ∧ (initializeQuestions (fun _ => 0) pool36 initialState).shuffledQuestions
        = (initializeQuestions (fun _ => 0) pool36 initialState).questionMapping.map
            (fun i => pool36.getD i default)
    ∧ (initializeQuestions (fun _ => 0) pool36 initialState).questionMapping
        = (shuffleArray (fun _ => 0) (List.range pool36.length)).take 20
    ∧ (initializeQuestions (fun _ => 0) pool36 initialState).shuffledQuestions.length = 20
    ∧ (initializeQuestions (fun _ => 0) pool36 initialState).userAnswers
        = List.replicate 20 JSAns.null :=
  sampler_draws_20 (fun _ => 0) pool36 initialState (fun k => Nat.zero_le k) (by decide)

/-- C9: `nextQuestion` moves the cursor up by one strictly below the last
index and is the identity at the last index; `previousQuestion` moves it
down by one when positive and is the identity at zero; both keep the
cursor inside `[0, K-1]`. -/
theorem navigation_clamped (s : QuizState)
    (hK : 0 < s.shuffledQuestions.length)
    (hc : s.currentQuestionIndex ≤ s.shuffledQuestions.length - 1) :
    (s.currentQuestionIndex < s.shuffledQuestions.length - 1 →
        (nextQuestion s).currentQuestionIndex = s.currentQuestionIndex + 1)
    ∧ (s.currentQuestionIndex = s.shuffledQuestions.length - 1 → nextQuestion s = s)
    ∧ (0 < s.currentQuestionIndex →
        (previousQuestion s).currentQuestionIndex = s.currentQuestionIndex - 1)
    ∧ (s.currentQuestionIndex = 0 → previousQuestion s = s)
    ∧ (nextQuestion s).currentQuestionIndex ≤ s.shuffledQuestions.length - 1
    ∧ (previousQuestion s).currentQuestionIndex ≤ s.shuffledQuestions.length - 1 := by
  refine ⟨?_, ?_, ?_, ?_, ?_, ?_⟩
  · intro h
    simp [nextQuestion, h]
  · intro h
    have : ¬ s.currentQuestionIndex < s.shuffledQuestions.length - 1 := by omega
    simp [nextQuestion, this]
  · intro h
    simp [previousQuestion, h]
  · intro h
    have : ¬ 0 < s.currentQuestionIndex := by omega
    simp [previousQuestion, this]
  · by_cases h : s.currentQuestionIndex < s.shuffledQuestions.length - 1
    · simp [nextQuestion, h]
      omega
    · simp [nextQuestion, h]
      omega
  · by_cases h : 0 < s.currentQuestionIndex
    · simp [previousQuestion, h]
      omega
    · simp [previousQuestion, h]
      omega

/-- Closed witness for `navigation_clamped`: a freshly started quiz
(cursor 0, 18 drawn questions). -/
theorem navigation_clamped_witness :
    ((startQuiz (fun _ => 0) quizQuestions initialState).currentQuestionIndex
        < (startQuiz (fun _ => 0) quizQuestions initialState).shuffledQuestions.length - 1 →
        (nextQuestion (startQuiz (fun _ => 0) quizQuestions
            initialState)).currentQuestionIndex
          = (startQuiz (fun _ => 0) quizQuestions initialState).currentQuestionIndex + 1)
    ∧ ((startQuiz (fun _ => 0) quizQuestions initialState).currentQuestionIndex
        = (startQuiz (fun _ => 0) quizQuestions initialState).shuffledQuestions.length - 1 →
        nextQuestion (startQuiz (fun _ => 0) quizQuestions initialState)
          = startQuiz (fun _ => 0) quizQuestions initialState)
    ∧ (0 < (startQuiz (fun _ => 0) quizQuestions initialState).currentQuestionIndex →
        (previousQuestion (startQuiz (fun _ => 0) quizQuestions
            initialState)).currentQuestionIndex
          = (startQuiz (fun _ => 0) quizQuestions initialState).currentQuestionIndex - 1)
    ∧ ((startQuiz (fun _ => 0) quizQuestions initialState).currentQuestionIndex = 0 →
        previousQuestion (startQuiz (fun _ => 0) quizQuestions initialState)
          = startQuiz (fun _ => 0) quizQuestions initialState)
    ∧ (nextQuestion (startQuiz (fun _ => 0) quizQuestions
          initialState)).currentQuestionIndex
        ≤ (startQuiz (fun _ => 0) quizQuestions initialState).shuffledQuestions.length - 1
    ∧ (previousQuestion (startQuiz (fun _ => 0) quizQuestions
          initialState)).currentQuestionIndex
        ≤ (startQuiz (fun _ => 0) quizQuestions initialState).shuffledQuestions.length - 1 :=
  navigation_clamped (startQuiz (fun _ => 0) quizQuestions initialState)
    (by decide) (by decide)

/-- C5: `checkCommandEquivalence` accepts exactly the inputs whose
normalization equals the normalized expected command or matches an entry
of the variations table row for it; in particular the upper-case
`GIT ADD INDEX.HTML` matches the expected `git add index.html`. -/
theorem cmd_equivalence_spec (u e : List Char) :
    (checkCommandEquivalence u e = true
      ↔ (normalizeCmd u = normalizeCmd e
         ∨ ∃ vs, variationsTable (normalizeCmd e) = some vs
             ∧ ∃ v ∈ vs, normalizeCmd v = normalizeCmd u))
    ∧ checkCommandEquivalence "GIT ADD INDEX.HTML".data "git add index.html".data = true := by
  constructor
  · show (if normalizeCmd u = normalizeCmd e then true
        else match variationsTable (normalizeCmd e) with
          | some variants => variants.any (fun v => normalizeCmd v = normalizeCmd u)
          | none => false) = true ↔ _
    by_cases heq : normalizeCmd u = normalizeCmd e
    · simp [heq]
    · rw [if_neg heq]
      cases hvt : variationsTable (normalizeCmd e) with
      | none => simp [heq]
      | some vs =>
        simp only [List.any_eq_true, decide_eq_true_iff]
        constructor
        · rintro ⟨v, hv, hnv⟩
          exact Or.inr ⟨vs, rfl, v, hv, hnv⟩
        · rintro (h | ⟨vs', hvs', v, hv, hnv⟩)
          · exact absurd h heq
          · obtain rfl : vs = vs' := Option.some.inj hvs'
            exact ⟨v, hv, hnv⟩
  · decide

theorem writeVerdict_getD (s : QuizState) (ok : Bool)
    (hc : s.currentQuestionIndex < s.userAnswers.length) :
    (writeVerdict s ok).userAnswers.getD s.currentQuestionIndex JSAns.null
      = JSAns.str (if ok then "correct" else "incorrect") :=
  getD_set_self s.userAnswers s.currentQuestionIndex _ JSAns.null hc

theorem verdict_eq_correct_iff (ok : Bool) :
    JSAns.str (if ok then "correct" else "incorrect") = JSAns.str "correct" ↔ ok = true := by
  cases ok <;> simp

theorem verdict_eq_incorrect_iff (ok : Bool) :
    JSAns.str (if ok then "correct" else "incorrect") = JSAns.str "incorrect" ↔ ok = false := by
  cases ok <;> simp

/-- C6: the aggregate verdict the checkers write into the current answer
slot is `'correct'` for the command-workflow exercise iff every step's
trimmed input is command-equivalent to its expected command, and for the
branch-practice exercise iff at least 2 of its 3 steps are; otherwise
`'incorrect'` is written. -/
theorem interactive_verdicts (s : QuizState) (inputs2 inputs3 : List (List Char))
    (h2 : inputs2.length = 2) (h3 : inputs3.length = 3)
    (hc : s.currentQuestionIndex < s.userAnswers.length) :
    ((checkGitWorkflowOp s inputs2).userAnswers.getD s.currentQuestionIndex JSAns.null
        = JSAns.str "correct"
      ↔ ∀ p ∈ inputs2.zip gitWorkflowAnswers,
          checkCommandEquivalence (trimChars p.1) p.2 = true)
    ∧ ((checkGitWorkflowOp s inputs2).userAnswers.getD s.currentQuestionIndex JSAns.null
        = JSAns.str "incorrect"
      ↔ ¬ ∀ p ∈ inputs2.zip gitWorkflowAnswers,
          checkCommandEquivalence (trimChars p.1) p.2 = true)
    ∧ ((checkBranchPracticeOp s inputs3).userAnswers.getD s.currentQuestionIndex JSAns.null
        = JSAns.str "correct"
      ↔ 2 ≤ (inputs3.zip branchPracticeAnswers).countP
          (fun p => checkCommandEquivalence (trimChars p.1) p.2))
    ∧ ((checkBranchPracticeOp s inputs3).userAnswers.getD s.currentQuestionIndex JSAns.null
        = JSAns.str "incorrect"
      ↔ (inputs3.zip branchPracticeAnswers).countP
          (fun p => checkCommandEquivalence (trimChars p.1) p.2) < 2) := by
  have hwv := writeVerdict_getD s (checkGitWorkflowVerdict (inputs2.zip gitWorkflowAnswers)) hc
  have hbv := writeVerdict_getD s
    (checkBranchPracticeVerdict (inputs3.zip branchPracticeAnswers)) hc
  refine ⟨?_, ?_, ?_, ?_⟩
  · rw [show checkGitWorkflowOp s inputs2
        = writeVerdict s (checkGitWorkflowVerdict (inputs2.zip gitWorkflowAnswers)) from rfl,
      hwv, verdict_eq_correct_iff]
    simp [checkGitWorkflowVerdict, List.all_eq_true]
  · rw [show checkGitWorkflowOp s inputs2
        = writeVerdict s (checkGitWorkflowVerdict (inputs2.zip gitWorkflowAnswers)) from rfl,
      hwv, verdict_eq_incorrect_iff]
    simp [checkGitWorkflowVerdict, List.all_eq_true]
  · rw [show checkBranchPracticeOp s inputs3
        = writeVerdict s (checkBranchPracticeVerdict (inputs3.zip branchPracticeAnswers))
        from rfl,
      hbv, verdict_eq_correct_iff]
    simp [checkBranchPracticeVerdict]
  · rw [show checkBranchPracticeOp s inputs3
        = writeVerdict s (checkBranchPracticeVerdict (inputs3.zip branchPracticeAnswers))
        from rfl,
      hbv, verdict_eq_incorrect_iff]
    simp [checkBranchPracticeVerdict]

/-- Closed witness for `interactive_verdicts`: a freshly started quiz,
perfect workflow answers, and branch-practice answers with steps 1 and 3
right and step 2 wrong (the spec's majority-rule example). -/
theorem interactive_verdicts_witness :
    ((checkGitWorkflowOp startedState gitWorkflowAnswers).userAnswers.getD
          startedState.currentQuestionIndex JSAns.null = JSAns.str "correct"
      ↔ ∀ p ∈ gitWorkflowAnswers.zip gitWorkflowAnswers,
          checkCommandEquivalence (trimChars p.1) p.2 = true)
    ∧ ((checkGitWorkflowOp startedState gitWorkflowAnswers).userAnswers.getD
          startedState.currentQuestionIndex JSAns.null = JSAns.str "incorrect"
      ↔ ¬ ∀ p ∈ gitWorkflowAnswers.zip gitWorkflowAnswers,
          checkCommandEquivalence (trimChars p.1) p.2 = true)
    ∧ ((checkBranchPracticeOp startedState branchTry).userAnswers.getD
          startedState.currentQuestionIndex JSAns.null = JSAns.str "correct"
      ↔ 2 ≤ (branchTry.zip branchPracticeAnswers).countP
          (fun p => checkCommandEquivalence (trimChars p.1) p.2))
    ∧ ((checkBranchPracticeOp startedState branchTry).userAnswers.getD
          startedState.currentQuestionIndex JSAns.null = JSAns.str "incorrect"
      ↔ (branchTry.zip branchPracticeAnswers).countP
          (fun p => checkCommandEquivalence (trimChars p.1) p.2) < 2) :=
  interactive_verdicts startedState gitWorkflowAnswers branchTry
    (by decide) (by decide) (by decide)

/-- C7: the ignore-builder verdict written into the current answer slot
is `'correct'` iff every checkbox's checked state equals its expected
state, and `'incorrect'` as soon as any one of them differs. -/
theorem ignore_builder_verdict (s : QuizState) (checks : List Bool)
    (h8 : checks.length = 8)
    (hc : s.currentQuestionIndex < s.userAnswers.length) :
    ((checkGitignoreBuilderOp s checks).userAnswers.getD s.currentQuestionIndex JSAns.null
        = JSAns.str "correct"
      ↔ ∀ p ∈ checks.zip gitignoreExpected, p.1 = p.2)
    ∧ ((checkGitignoreBuilderOp s checks).userAnswers.getD s.currentQuestionIndex JSAns.null
        = JSAns.str "incorrect"
      ↔ ∃ p ∈ checks.zip gitignoreExpected, p.1 ≠ p.2) := by
  have hv := writeVerdict_getD s (checkGitignoreBuilderVerdict (checks.zip gitignoreExpected)) hc
  constructor
  · rw [show checkGitignoreBuilderOp s checks
        = writeVerdict s (checkGitignoreBuilderVerdict (checks.zip gitignoreExpected)) from rfl,
      hv, verdict_eq_correct_iff]
    simp [checkGitignoreBuilderVerdict, List.all_eq_true]
  · rw [show checkGitignoreBuilderOp s checks
        = writeVerdict s (checkGitignoreBuilderVerdict (checks.zip gitignoreExpected)) from rfl,
      hv, verdict_eq_incorrect_iff]
    simp [checkGitignoreBuilderVerdict, List.all_eq_true]

/-- Closed witness for `ignore_builder_verdict`: the learner checks only
`node_modules/` and `.env`, missing `*.log`, `dist/` and `.DS_Store` (the
spec's no-partial-credit example). -/
theorem ignore_builder_verdict_witness :
    ((checkGitignoreBuilderOp startedState ignoreTry).userAnswers.getD
          startedState.currentQuestionIndex JSAns.null = JSAns.str "correct"
      ↔ ∀ p ∈ ignoreTry.zip gitignoreExpected, p.1 = p.2)
    ∧ ((checkGitignoreBuilderOp startedState ignoreTry).userAnswers.getD
          startedState.currentQuestionIndex JSAns.null = JSAns.str "incorrect"
      ↔ ∃ p ∈ ignoreTry.zip gitignoreExpected, p.1 ≠ p.2) :=
  ignore_builder_verdict startedState ignoreTry (by decide) (by decide)

/-- C4 (code bug): `showQuizResults` computes the review flag as
`userAnswer === q.correct` for every question, but an interactive
question has no `correct` field, so its flag is always false — even when
the stored verdict is `'correct'` and `submitQuiz` counted that same slot
correct.  Evaluated at the git-workflow question (`quizQuestions[3]`)
with stored verdict `'correct'`. -/
theorem review_contradicts_scorer :
    reviewIsCorrect (quizQuestions.getD 3 default) (JSAns.str "correct") = false
    ∧ isSlotCorrect (quizQuestions.getD 3 default) (JSAns.str "correct") = true
    ∧ reviewBreakdown [quizQuestions.getD 3 default] [JSAns.str "correct"] = [false] := by
  constructor
  · rfl
  · constructor
    · decide
    · rfl

/-- C8 (code bug): right after `startQuiz` on the shipped pool, the drawn
question array has 18 entries (the pool has only 18 questions despite the
"select 20 from 100" comments) while the answer array has 20 slots — the
length-equality invariant is violated in every freshly started attempt,
whatever the random draws. -/
theorem attempt_length_mismatch (r : Nat → Nat) (s : QuizState) :
    (startQuiz r quizQuestions s).shuffledQuestions.length = 18
    ∧ (startQuiz r quizQuestions s).userAnswers.length = 20 := by
  constructor
  · simp only [startQuiz, initializeQuestions]
    rw [List.length_map, List.length_take, shuffleArray_length, List.length_range]
    rfl
  · simp [startQuiz, initializeQuestions]

/-- C10 (counterexample): with the shipped 18-question pool and a
requested sample of 20, `initializeQuestions` raises no configuration
error — it happily produces an attempt with 18 drawn questions,
an 18-entry mapping, and 20 fresh answer slots. -/
theorem sampler_no_config_error :
    (initializeQuestions (fun _ => 0) quizQuestions initialState).shuffledQuestions.length = 18
    ∧ (initializeQuestions (fun _ => 0) quizQuestions
        initialState).questionMapping.length = 18
    ∧ (initializeQuestions (fun _ => 0) quizQuestions initialState).userAnswers
        = List.replicate 20 JSAns.null := by
  refine ⟨?_, by decide, rfl⟩
  simp only [initializeQuestions]
  rw [List.length_map, List.length_take, shuffleArray_length, List.length_range]
  rfl

/-- C10 (amended): when the pool has fewer than the 20 requested
questions, `initializeQuestions` does not fail — it returns an attempt
whose drawn questions are all `N` pool entries (in shuffled order, at
pairwise-distinct pool positions) while still resetting the answer array
to 20 unanswered slots. -/
theorem sampler_accepts_small_pool (r : Nat → Nat) (pool : List Question) (s : QuizState)
    (hr : ∀ k, r k ≤ k) (hN : pool.length < 20) :
    (initializeQuestions r pool s).shuffledQuestions.length = pool.length
    ∧ (initializeQuestions r pool s).questionMapping.Nodup
    ∧ (∀ i ∈ (initializeQuestions r pool s).questionMapping, i < pool.length)
    ∧ (initializeQuestions r pool s).userAnswers = List.replicate 20 JSAns.null := by
  have hperm : List.Perm (shuffleArray r (List.range pool.length)) (List.range pool.length) :=
    shuffleArray_perm r hr (List.range pool.length)
  have hlen : (shuffleArray r (List.range pool.length)).length = pool.length := by
    rw [hperm.length_eq, List.length_range]
  refine ⟨?_, ?_, ?_, rfl⟩
  · simp only [initializeQuestions]
    rw [List.length_map, List.length_take, hlen]
    omega
  · have : (shuffleArray r (List.range pool.length)).Nodup :=
      hperm.nodup_iff.mpr (List.nodup_range pool.length)
    exact this.sublist (List.take_sublist 20 _)
  · intro i hi
    have : i ∈ List.range pool.length :=
      hperm.mem_iff.mp (List.take_subset 20 _ hi)
    exact List.mem_range.mp this

/-- Closed witness for `sampler_accepts_small_pool`: the shipped
18-question pool itself. -/
theorem sampler_accepts_small_pool_witness :
    (initializeQuestions (fun _ => 0) quizQuestions initialState).shuffledQuestions.length
        = quizQuestions.length
    ∧ (initializeQuestions (fun _ => 0) quizQuestions initialState).questionMapping.Nodup
    ∧ (∀ i ∈ (initializeQuestions (fun _ => 0) quizQuestions initialState).questionMapping,
        i < quizQuestions.length)
    ∧ (initializeQuestions (fun _ => 0) quizQuestions initialState).userAnswers
        = List.replicate 20 JSAns.null :=
  sampler_accepts_small_pool (fun _ => 0) quizQuestions initialState
    (fun k => Nat.zero_le k) (by decide)

end GH101
